import Mathlib

/-!
A shallow embedding of the transit-scrape ingestion pipeline
(src/process_cycle_networks.py, src/push_to_db.py, src/utils/db_helpers.py,
src/utils/db_models.py), together with theorems settling the specification
claims about it.

Python exceptions are modelled as `Option`/`Except` failure values; the
GeoJSON payload is modelled by an inductive `Json` type; geometries are
restricted to the line geometries carried by the route data, with a null
geometry modelled as `Option Geometry`; coordinates are rationals and the
(library-delegated) Euclidean length is real-valued.
-/

namespace TransitScrape

/-- JSON values, the payload of the GeoJSON input files. -/
inductive Json where
  | null
  | bool (b : Bool)
  | num (q : ℚ)
  | str (s : String)
  | arr (elems : List Json)
  | obj (fields : List (String × Json))

/-- A planar coordinate pair (easting/northing, or lon/lat after reprojection). -/
abbrev Point := ℚ × ℚ

/-- The line geometries carried by the cycling-route data (shapely shapes). -/
inductive Geometry where
  | lineString (pts : List Point)
  | multiLineString (lines : List (List Point))
deriving DecidableEq

/-- One row of a GeoDataFrame: the feature's non-geometry attributes plus a
parsed geometry value (`none` models a null/None geometry). -/
structure Row where
  props : List (String × Json)
  geom : Option Geometry

/-- A GeoDataFrame: rows plus the frame's declared CRS
(`some 27700` British National Grid, `some 4326` WGS84, `none` no CRS). -/
structure Frame where
  rows : List Row
  crs : Option ℕ

/-- Whether `needle` is a leading segment of `hay` (character lists). -/
def chrLeads : List Char → List Char → Bool
  | [], _ => true
  | _ :: _, [] => false
  | a :: as, b :: bs => a == b && chrLeads as bs

/-- Whether `needle` occurs contiguously inside `hay` (character lists). -/
def chrHasSub (needle : List Char) : List Char → Bool
  | [] => needle.isEmpty
  | c :: rest => chrLeads needle (c :: rest) || chrHasSub needle rest

/-- Python truthiness of a JSON value (`if not features`). -/
def jsonTruthy : Json → Bool
  | .null => false
  | .bool b => b
  | .num q => decide (q ≠ 0)
  | .str s => !s.data.isEmpty
  | .arr elems => !elems.isEmpty
  | .obj fields => !fields.isEmpty

/-- Python `s in data`: key membership for a dict, element membership for a
list, substring test for a string; `none` models a raised TypeError. -/
def pyIn (data : Json) (s : String) : Option Bool :=
  match data with
  | .obj fields => some (fields.any (fun kv => kv.1 == s))
  | .arr elems => some (elems.any (fun e => match e with | .str t => t == s | _ => false))
  | .str t => some (chrHasSub s.data t.data)
  | _ => none

/-- First binding of key `k` in an association list (a Python dict lookup). -/
def lookupField (fields : List (String × Json)) (k : String) : Option Json :=
  match fields with
  | [] => none
  | (k2, v) :: rest => if k2 == k then some v else lookupField rest k

/-- Python `data[k]` for a string key: a dict lookup; `none` models a raised
KeyError/TypeError. -/
def pyGetItem (data : Json) (k : String) : Option Json :=
  match data with
  | .obj fields => lookupField fields k
  | _ => none

/-- Whether a JSON value equals the string `s` (Python `x == 'lit'`). -/
def jsonIsStr (j : Json) (s : String) : Bool :=
  match j with
  | .str t => t == s
  | _ => false

/-- One GeoJSON position `[x, y]`. -/
def parseCoordPair : Json → Option Point
  | .arr [.num x, .num y] => some (x, y)
  | _ => none

/-- A GeoJSON coordinate array for one line. -/
def parseLineCoords : Json → Option (List Point)
  | .arr l => l.mapM parseCoordPair
  | _ => none

/-- shapely `shape()` restricted to the line geometries of the route data;
`none` models a raised error on a malformed geometry object. -/
def shape (gj : Json) : Option Geometry :=
  match gj with
  | .obj fields =>
    match lookupField fields "type", lookupField fields "coordinates" with
    | some (.str "LineString"), some cj => (parseLineCoords cj).map Geometry.lineString
    | some (.str "MultiLineString"), some (.arr ls) =>
        (ls.mapM parseLineCoords).map Geometry.multiLineString
    | _, _ => none
  | _ => none

/-- One feature turned into a GeoDataFrame row, as in
`GeoDataFrame.from_features`: the row gets `shape(feature["geometry"])` when
the geometry member is truthy and None otherwise, then the feature's
`properties` (or `{}` when falsy); `none` models a raised error. -/
def featureToRow (f : Json) : Option Row := do
  match f with
  | .obj fields => do
    let gj ← lookupField fields "geometry"
    let geo : Option Geometry ←
      if jsonTruthy gj then (shape gj).map some
      else pure none
    let pj ← lookupField fields "properties"
    let props ←
      if !jsonTruthy pj then pure []
      else match pj with
        | .obj pf => pure pf
        | _ => none
    pure ⟨props, geo⟩
  | _ => none

/-- A JSON document handed to `json.load`: either text that fails to parse or
a parsed JSON value. -/
inductive JsonDoc where
  | malformed
  | value (j : Json)

/-- The importer's outcome: an imported frame, the "no data" report
(`No features found`), or the parse-error report (`Error importing`); both
failure outcomes are returned to the caller as None. -/
inductive ImportResult where
  | ok (frame : Frame)
  | noData
  | parseError

/-- Python `features = []; if isinstance(data, list): features = data`. -/
def fallbackFeatures : Json → Json
  | .arr elems => .arr elems
  | _ => .arr []

/-- The body of `import_json_data`'s try block after `json.load`; `none`
models an exception reaching the enclosing handler. -/
def importBody (data : Json) : Option ImportResult := do
  let hasType ← pyIn data "type"
  let features ←
    if hasType then do
      let t ← pyGetItem data "type"
      if jsonIsStr t "FeatureCollection" then
        pyGetItem data "features"
      else if jsonIsStr t "Feature" then
        pure (Json.arr [data])
      else pure (fallbackFeatures data)
    else pure (fallbackFeatures data)
  if !jsonTruthy features then
    pure ImportResult.noData
  else
    match features with
    | .arr fs => (fs.mapM featureToRow).map fun rows => ImportResult.ok ⟨rows, some 27700⟩
    | _ => none

/-- `import_json_data` of src/process_cycle_networks.py: any exception inside
the try block (malformed JSON included) is caught and reported as the
parse-error outcome; the frame is tagged with EPSG:27700 at import time. -/
def import_json_data : JsonDoc → ImportResult
  | .malformed => .parseError
  | .value data =>
    match importBody data with
    | some r => r
    | none => .parseError

/-- The value `import_json_data` actually returns to its caller: the frame on
success and None for both failure outcomes. -/
def importReturn : ImportResult → Option Frame
  | .ok f => some f
  | .noData => none
  | .parseError => none

/-- `os.path.basename`: the characters after the last path separator. -/
def basename (p : String) : String :=
  ⟨(p.data.reverse.takeWhile (fun c => c != '/')).reverse⟩

/-- The stem of `os.path.splitext`: split at the last dot, provided some
character before it is not a dot (so names of only leading dots are kept). -/
def splitextStem (p : String) : String :=
  let cs := p.data
  let ext := cs.reverse.takeWhile (fun c => c != '.')
  if ext.length == cs.length then p
  else
    let pre := cs.take (cs.length - ext.length - 1)
    if pre.any (fun c => c != '.') then ⟨pre⟩ else p

/-- Application of a coordinate transformation to a geometry (`to_crs`). -/
def mapGeom (f : Point → Point) : Geometry → Geometry
  | .lineString pts => .lineString (pts.map f)
  | .multiLineString ls => .multiLineString (ls.map (fun pts => pts.map f))

noncomputable section

/-- Euclidean length of one segment, in the units of the current CRS
(shapely's planar length of a two-point piece). -/
def segLen (p q : Point) : ℝ :=
  Real.sqrt (((q.1 : ℝ) - (p.1 : ℝ)) ^ 2 + ((q.2 : ℝ) - (p.2 : ℝ)) ^ 2)

/-- Euclidean length of a coordinate chain. -/
def chainLen : List Point → ℝ
  | [] => 0
  | [_] => 0
  | p :: q :: rest => segLen p q + chainLen (q :: rest)

/-- shapely `geometry.length`: the planar Euclidean length of the geometry in
its current coordinate system. -/
def geomLength : Geometry → ℝ
  | .lineString pts => chainLen pts
  | .multiLineString ls => (ls.map chainLen).sum

/-- Messages printed by `process_route_features`. -/
inductive LogEvent where
  | featureError (idx : ℕ)
  | noValidResults
deriving DecidableEq

/-- A processed record: the source feature's non-geometry attributes plus the
derived fields and the geometry (each surviving record keeps its geometry). -/
structure ProcessedRow where
  props : List (String × Json)
  route_length_m : ℝ
  source_file : String
  geom : Geometry

/-- The processed table with its CRS tag. -/
structure ProcFrame where
  rows : List ProcessedRow
  crs : Option ℕ

/-- The per-feature loop of `process_route_features`: extract the
non-geometry attributes, measure the geometry's length in the current
(projected) CRS, and skip the record with a printed warning when measuring
raises (a null geometry); `idx` is the dataframe index of the first row. -/
def processLoop (file : String) : List Row → ℕ → List ProcessedRow × List LogEvent
  | [], _ => ([], [])
  | row :: rest, idx =>
    let r := processLoop file rest (idx + 1)
    match row.geom with
    | none => (r.1, LogEvent.featureError idx :: r.2)
    | some g =>
        (⟨row.props.filter (fun kv => !(kv.1 == "geometry")), geomLength g,
          basename file, g⟩ :: r.1, r.2)

/-- `to_crs` applied to one processed record: only the geometry changes. -/
def reprojRow (reproj : Point → Point) (r : ProcessedRow) : ProcessedRow :=
  { r with geom := mapGeom reproj r.geom }

/-- What one input row contributes to the processed results: nothing when its
geometry cannot be measured, and otherwise the record carrying the
non-geometry attributes, the length measured on the source-CRS geometry, the
provenance file name, and the still-unprojected geometry. -/
def toProcessed (file : String) (row : Row) : Option ProcessedRow :=
  row.geom.map (fun g =>
    ⟨row.props.filter (fun kv => !(kv.1 == "geometry")), geomLength g, basename file, g⟩)

/-- `process_route_features` of src/process_cycle_networks.py: run the
per-feature loop (lengths measured in the source CRS EPSG:27700), report
"no valid results" when nothing survives, and otherwise reproject the whole
result table to EPSG:4326. `reproj` is the library coordinate transformation
from EPSG:27700 to EPSG:4326. -/
def process_route_features (reproj : Point → Point) (gdf : Frame) (filePath : String) :
    Option ProcFrame × List LogEvent :=
  let r := processLoop filePath gdf.rows 0
  if r.1.isEmpty then (none, r.2 ++ [LogEvent.noValidResults])
  else (some ⟨r.1.map (reprojRow reproj), some 4326⟩, r.2)

/-- Output formats of `process_route_json_file`. -/
inductive OutputFormat where
  | geojson
  | csv
  | postgres

/-- Filesystem side effects of the processing CLI. -/
inductive FsEvent where
  | mkdirP (dir : String)
  | write (path : String)
deriving DecidableEq

/-- The value returned by `process_route_json_file`: an output path, the
in-memory frame (postgres format), or None. -/
inductive ProcOutcome where
  | path (p : String)
  | frameResult (f : ProcFrame)
  | failed

/-- The output file name `{base_name}_{timestamp}.{ext}` joined to the
output directory. -/
def outputPath (outputDir filePath timestamp ext : String) : String :=
  outputDir ++ "/" ++ splitextStem (basename filePath) ++ "_" ++ timestamp ++ ext

/-- `process_route_json_file` of src/process_cycle_networks.py: import, then
process; on either returning None, return None without writing; otherwise
write exactly one file in the requested format (or hand back the frame for
the postgres format). The write trace records the files created. -/
def process_route_json_file (reproj : Point → Point) (doc : JsonDoc)
    (filePath outputDir timestamp : String) (fmt : OutputFormat) :
    ProcOutcome × List FsEvent :=
  match importReturn (import_json_data doc) with
  | none => (.failed, [])
  | some gdf =>
    match (process_route_features reproj gdf filePath).1 with
    | none => (.failed, [])
    | some result =>
      match fmt with
      | .geojson =>
          let out := outputPath outputDir filePath timestamp ".geojson"
          (.path out, [.write out])
      | .csv =>
          let out := outputPath outputDir filePath timestamp ".csv"
          (.path out, [.write out])
      | .postgres => (.frameResult result, [])

/-- `main` of src/process_cycle_networks.py around the processing call: the
output directory is created (exist_ok) before processing. -/
def mainRun (reproj : Point → Point) (doc : JsonDoc)
    (filePath outputDir timestamp : String) (fmt : OutputFormat) :
    ProcOutcome × List FsEvent :=
  let r := process_route_json_file reproj doc filePath outputDir timestamp fmt
  (r.1, FsEvent.mkdirP outputDir :: r.2)

/-- The files written in a trace. -/
def writesOf (evs : List FsEvent) : List String :=
  evs.filterMap (fun e => match e with | .write p => some p | _ => none)

end

/-- A model of shapely `wkt.dumps`: the geometry rendered as well-known text. -/
def wktDumps : Geometry → String
  | .lineString pts =>
      "LINESTRING (" ++ String.intercalate ", "
        (pts.map (fun p => toString p.1 ++ " " ++ toString p.2)) ++ ")"
  | .multiLineString ls =>
      "MULTILINESTRING (" ++ String.intercalate ", "
        (ls.map (fun pts => "(" ++ String.intercalate ", "
          (pts.map (fun p => toString p.1 ++ " " ++ toString p.2)) ++ ")")) ++ ")"

/-- The `CyclingRoute` model of src/utils/db_models.py as an insertable
record: one optional value per mapped column (`id`, `created_at` and
`updated_at` are normally left to the store but are assignable), and the
geometry column holding an extended WKT string. -/
structure CyclingRoute where
  id : Option Json := none
  route_id : Option Json := none
  street : Option Json := none
  locality : Option Json := none
  route_type : Option Json := none
  notes : Option Json := none
  surface : Option Json := none
  ncn_route : Option Json := none
  traffic : Option Json := none
  local_authority : Option Json := none
  la_s_code : Option Json := none
  sh_date_uploaded : Option Json := none
  sh_src : Option Json := none
  sh_src_id : Option Json := none
  route_length_m : Option Json := none
  source_file : Option Json := none
  created_at : Option Json := none
  updated_at : Option Json := none
  geometry : Option String := none

/-- Python `hasattr(model, k)` for a `CyclingRoute` instance: the mapped
attribute names. -/
def modelHasAttr (k : String) : Bool :=
  k == "id" || k == "route_id" || k == "street" || k == "locality" ||
  k == "route_type" || k == "notes" || k == "surface" || k == "ncn_route" ||
  k == "traffic" || k == "local_authority" || k == "la_s_code" ||
  k == "sh_date_uploaded" || k == "sh_src" || k == "sh_src_id" ||
  k == "route_length_m" || k == "source_file" || k == "created_at" ||
  k == "updated_at" || k == "geometry"

/-- Python `setattr(model, k, v)` for the non-geometry columns. -/
def setAttr (m : CyclingRoute) (k : String) (v : Json) : CyclingRoute :=
  if k == "id" then { m with id := some v }
  else if k == "route_id" then { m with route_id := some v }
  else if k == "street" then { m with street := some v }
  else if k == "locality" then { m with locality := some v }
  else if k == "route_type" then { m with route_type := some v }
  else if k == "notes" then { m with notes := some v }
  else if k == "surface" then { m with surface := some v }
  else if k == "ncn_route" then { m with ncn_route := some v }
  else if k == "traffic" then { m with traffic := some v }
  else if k == "local_authority" then { m with local_authority := some v }
  else if k == "la_s_code" then { m with la_s_code := some v }
  else if k == "sh_date_uploaded" then { m with sh_date_uploaded := some v }
  else if k == "sh_src" then { m with sh_src := some v }
  else if k == "sh_src_id" then { m with sh_src_id := some v }
  else if k == "route_length_m" then { m with route_length_m := some v }
  else if k == "source_file" then { m with source_file := some v }
  else if k == "created_at" then { m with created_at := some v }
  else if k == "updated_at" then { m with updated_at := some v }
  else m

/-- One iteration of the attribute loop in `gdf_to_sql_model`: skip the
geometry column, rename `type` to `route_type`, assign matching-named
attributes, drop the rest. -/
def rowStep (m : CyclingRoute) (kv : String × Json) : CyclingRoute :=
  if kv.1 == "geometry" then m
  else if kv.1 == "type" && modelHasAttr "route_type" then setAttr m "route_type" kv.2
  else if modelHasAttr kv.1 then setAttr m kv.1 kv.2
  else m

/-- The attribute-mapping of `gdf_to_sql_model` for one row: run the
attribute loop over the row's items; then, when the row's geometry is not
None, assign the geometry column as SRID-tagged WKT. -/
def rowToModel (row : Row) : CyclingRoute :=
  let m := row.props.foldl rowStep {}
  match row.geom with
  | some g => { m with geometry := some ("SRID=4326;" ++ wktDumps g) }
  | none => m

/-- The relational store: the rows committed to the routes table. -/
structure DbState where
  committed : List CyclingRoute

/-- The batch slices produced by `range(0, total, batchSize)` with
`iloc[i:i+batchSize]`. -/
def chunks (l : List Row) (batchSize : ℕ) : List (List Row) :=
  (List.range ((l.length + batchSize - 1) / batchSize)).map
    (fun i => (l.drop (i * batchSize)).take batchSize)

/-- The batch loop of `gdf_to_sql_model`: build the batch's models, add them
to the session and commit; a failing commit (`failOn` at the batch's index)
rolls the pending batch back and re-raises, leaving earlier commits in
place. Returns the running inserted count on success. -/
def insertBatches (failOn : ℕ → Bool) :
    List (List Row) → ℕ → ℕ → DbState → DbState × Except Unit ℕ
  | [], _, acc, db => (db, .ok acc)
  | batch :: rest, k, acc, db =>
    let models := batch.map rowToModel
    if failOn k then (db, .error ())
    else insertBatches failOn rest (k + 1) (acc + models.length) ⟨db.committed ++ models⟩

/-- `gdf_to_sql_model` of src/utils/db_helpers.py: insert the frame's rows in
batches of `batchSize`, committing each batch independently; `failOn` is the
oracle saying which batch commits raise. A batch size of zero makes
`range` itself raise. -/
def gdf_to_sql_model (failOn : ℕ → Bool) (gdf : Frame) (batchSize : ℕ)
    (db : DbState) : DbState × Except Unit ℕ :=
  if batchSize == 0 then (db, .error ())
  else insertBatches failOn (chunks gdf.rows batchSize) 0 0 db

/-- `create_tables` of src/utils/db_helpers.py on the routes table: drop all
governed tables first when asked, then create missing tables (a no-op on an
existing table). -/
def create_tables (db : DbState) (drop_first : Bool) : DbState :=
  if drop_first then { committed := [] } else db

/-- The outcome of `gpd.read_file` on a processed GeoJSON file. -/
inductive ReadResult where
  | failure
  | ok (frame : Frame)

/-- Loader-side `to_crs("EPSG:4326")` on a whole frame. -/
def to_crs_4326 (reproj : Point → Point) (f : Frame) : Frame :=
  ⟨f.rows.map (fun r => { r with geom := r.geom.map (mapGeom reproj) }), some 4326⟩

/-- `load_processed_geojson_to_db` of src/utils/db_helpers.py: read the file,
return 0 on no data, reproject when the declared CRS is not EPSG:4326 (a
frame with no CRS makes `to_crs` raise, caught by the outer handler), create
tables (dropping first when asked), then insert; a batch failure is caught,
rolled back and converted to 0. Every failure path returns `.ok 0`. -/
def load_processed_geojson_to_db (reproj : Point → Point) (readRes : ReadResult)
    (failOn : ℕ → Bool) (batchSize : ℕ) (drop_existing : Bool) (db : DbState) :
    DbState × Except Unit ℕ :=
  match readRes with
  | .failure => (db, .ok 0)
  | .ok gdf =>
    if gdf.rows.isEmpty then (db, .ok 0)
    else
      let converted : Option Frame :=
        if gdf.crs == some 4326 then some gdf
        else match gdf.crs with
          | none => none
          | some _ => some (to_crs_4326 reproj gdf)
      match converted with
      | none => (db, .ok 0)
      | some gdf2 =>
        let db1 := create_tables db drop_existing
        match gdf_to_sql_model failOn gdf2 batchSize db1 with
        | (db2, .ok n) => (db2, .ok n)
        | (db2, .error _) => (db2, .ok 0)

/-- The per-file invocations made by the directory branch of `main` in
src/push_to_db.py: each file is paired with the drop flag it is loaded with,
`drop_existing and i == 0`. -/
def dirLoadCalls (drop_existing : Bool) (files : List String) : List (String × Bool) :=
  files.enum.map (fun p => (p.2, drop_existing && p.1 == 0))

/-- The directory branch of `main` in src/push_to_db.py: load each matched
file with its per-file drop flag, accumulating the files/records summary
counters (per-file exceptions would be caught; the modelled loader never
raises). -/
def runDirectory (reproj : Point → Point) (readFile : String → ReadResult)
    (failOn : String → ℕ → Bool) (batchSize : ℕ) (drop_existing : Bool)
    (files : List String) (db : DbState) : DbState × ℕ × ℕ :=
  (dirLoadCalls drop_existing files).foldl
    (fun st call =>
      let r := load_processed_geojson_to_db reproj (readFile call.1)
        (failOn call.1) batchSize call.2 st.1
      match r.2 with
      | .ok n => (r.1, st.2.1 + 1, st.2.2 + n)
      | .error _ => (r.1, st.2))
    (db, 0, 0)

/-- The scenario input document of the specification: a FeatureCollection
with one feature, properties street/type, and a two-point LineString. -/
def exampleDoc : Json := .obj [
  ("type", .str "FeatureCollection"),
  ("features", .arr [
    .obj [
      ("type", .str "Feature"),
      ("properties", .obj [("street", .str "Main St"), ("type", .str "Cycle Lane")]),
      ("geometry", .obj [
        ("type", .str "LineString"),
        ("coordinates", .arr [.arr [.num 300000, .num 700000],
          .arr [.num 300100, .num 700100]])])]])]

/-- The scenario feature's attributes. -/
def exampleProps : List (String × Json) :=
  [("street", .str "Main St"), ("type", .str "Cycle Lane")]

/-- The scenario feature's geometry. -/
def exampleLine : Geometry := .lineString [(300000, 700000), (300100, 700100)]

/-! ## Theorems -/

/-- The per-feature loop keeps exactly the measurable records, in input
order, each carrying the length of its source-CRS geometry. -/
theorem processLoop_fst (file : String) (rows : List Row) (idx : ℕ) :
    (processLoop file rows idx).1 = rows.filterMap (toProcessed file) := by
  induction rows generalizing idx with
  | nil => rfl
  | cons row rest ih =>
    cases hg : row.geom with
    | none => simp [processLoop, hg, toProcessed, ih]
    | some g => simp [processLoop, hg, toProcessed, ih]

/-- Every row whose geometry cannot be measured gets a printed warning at its
dataframe index. -/
theorem processLoop_log (file : String) (rows : List Row) (idx : ℕ)
    (i : ℕ) (hi : i < rows.length) (hg : (rows.get ⟨i, hi⟩).geom = none) :
    LogEvent.featureError (idx + i) ∈ (processLoop file rows idx).2 := by
  induction rows generalizing idx i with
  | nil => simp at hi
  | cons row rest ih =>
    cases i with
    | zero =>
      have hrow : row.geom = none := hg
      simp [processLoop, hrow]
    | succ n =>
      have hmem := ih (idx + 1) n (by simpa using hi) (by simpa using hg)
      have harith : idx + (n + 1) = (idx + 1) + n := by omega
      cases hrow : row.geom with
      | none =>
        simp only [processLoop, hrow, List.mem_cons]
        right
        rw [harith]
        exact hmem
      | some g =>
        simp only [processLoop, hrow]
        rw [harith]
        exact hmem

/-- C1: for every imported table, the Route Processor computes
`route_length_m` for each record as the geometric length of that record's
geometry measured in the projected source reference system (EPSG:27700),
strictly before any reprojection, and every record of the processed output
table has `route_length_m` populated and its geometry expressed in the
geographic reference system (EPSG:4326). -/
theorem spec_C1 (reproj : Point → Point) (gdf : Frame) (path : String)
    (out : ProcFrame) (logs : List LogEvent)
    (h : process_route_features reproj gdf path = (some out, logs)) :
    out.crs = some 4326 ∧
    ∀ r ∈ out.rows, ∃ row ∈ gdf.rows, ∃ g, row.geom = some g ∧
      r.route_length_m = geomLength g ∧
      r.geom = mapGeom reproj g ∧ r.source_file = basename path := by
  simp only [process_route_features] at h
  by_cases he : (processLoop path gdf.rows 0).1.isEmpty = true
  · rw [if_pos he] at h
    exact absurd (congrArg Prod.fst h) (by simp)
  · rw [if_neg he] at h
    have hout : out = ⟨(processLoop path gdf.rows 0).1.map (reprojRow reproj), some 4326⟩ := by
      have := congrArg Prod.fst h
      simp at this
      exact this.symm
    subst hout
    refine ⟨rfl, ?_⟩
    intro r hr
    simp only [List.mem_map] at hr
    obtain ⟨r0, hr0, rfl⟩ := hr
    rw [processLoop_fst] at hr0
    rw [List.mem_filterMap] at hr0
    obtain ⟨row, hrow, hto⟩ := hr0
    refine ⟨row, hrow, ?_⟩
    unfold toProcessed at hto
    cases hgeom : row.geom with
    | none => rw [hgeom] at hto; simp at hto
    | some g =>
      rw [hgeom, Option.map_some'] at hto
      refine ⟨g, rfl, ?_⟩
      have hr0 := Option.some.inj hto
      subst hr0
      exact ⟨rfl, rfl, rfl⟩

/-- Witness for C1 at a concrete one-row frame. -/
theorem spec_C1_witness :
    (⟨[⟨[], geomLength (Geometry.lineString [(0, 0), (3, 4)]), basename "f.json",
        mapGeom (fun p => p) (Geometry.lineString [(0, 0), (3, 4)])⟩],
      some 4326⟩ : ProcFrame).crs = some 4326 ∧
    ∀ r ∈ (⟨[⟨[], geomLength (Geometry.lineString [(0, 0), (3, 4)]), basename "f.json",
        mapGeom (fun p => p) (Geometry.lineString [(0, 0), (3, 4)])⟩],
      some 4326⟩ : ProcFrame).rows,
      ∃ row ∈ [(⟨[], some (Geometry.lineString [(0, 0), (3, 4)])⟩ : Row)], ∃ g,
        row.geom = some g ∧
        r.route_length_m = geomLength g ∧
        r.geom = mapGeom (fun p => p) g ∧ r.source_file = basename "f.json" :=
  spec_C1 (fun p => p) ⟨[⟨[], some (Geometry.lineString [(0, 0), (3, 4)])⟩], some 27700⟩
    "f.json" _ [] rfl

/-- C5: for every imported table, any record whose geometry cannot be
measured (a null geometry) is skipped by the Route Processor with a logged
warning and processing continues for the remaining records; the processed
output contains exactly the records whose length computation succeeded, in
input order, and is reported as a failure only when no record survives. -/
theorem spec_C5 (reproj : Point → Point) (gdf : Frame) (path : String) :
    (∀ i (hi : i < gdf.rows.length), (gdf.rows.get ⟨i, hi⟩).geom = none →
      LogEvent.featureError i ∈ (process_route_features reproj gdf path).2) ∧
    (∀ out logs, process_route_features reproj gdf path = (some out, logs) →
      out.rows = (gdf.rows.filterMap (toProcessed path)).map (reprojRow reproj)) ∧
    ((process_route_features reproj gdf path).1 = none ↔
      gdf.rows.filterMap (toProcessed path) = []) := by
  refine ⟨?_, ?_, ?_⟩
  · intro i hi hg
    have hmem := processLoop_log path gdf.rows 0 i hi hg
    rw [Nat.zero_add] at hmem
    simp only [process_route_features]
    by_cases he : (processLoop path gdf.rows 0).1.isEmpty = true
    · rw [if_pos he]
      exact List.mem_append_left _ hmem
    · rw [if_neg he]
      exact hmem
  · intro out logs h
    simp only [process_route_features] at h
    by_cases he : (processLoop path gdf.rows 0).1.isEmpty = true
    · rw [if_pos he] at h
      exact absurd (congrArg Prod.fst h) (by simp)
    · rw [if_neg he] at h
      have hout := congrArg Prod.fst h
      simp at hout
      rw [← hout, processLoop_fst]
  · constructor
    · intro hnone
      by_cases he : (processLoop path gdf.rows 0).1.isEmpty = true
      · rw [← processLoop_fst path gdf.rows 0]
        exact List.isEmpty_iff.mp he
      · exfalso
        simp only [process_route_features] at hnone
        rw [if_neg he] at hnone
        simp at hnone
    · intro hnil
      have he : (processLoop path gdf.rows 0).1.isEmpty = true := by
        rw [List.isEmpty_iff, processLoop_fst]
        exact hnil
      simp only [process_route_features]
      rw [if_pos he]

/-- Witness for C5: a frame with one null-geometry row and one measurable row
yields the logged warning at index 0. -/
theorem spec_C5_witness :
    LogEvent.featureError 0 ∈
      (process_route_features (fun p => p)
        ⟨[⟨[], none⟩, ⟨[], some (Geometry.lineString [(1, 2), (3, 4)])⟩], some 27700⟩
        "g.json").2 :=
  (spec_C5 (fun p => p)
    ⟨[⟨[], none⟩, ⟨[], some (Geometry.lineString [(1, 2), (3, 4)])⟩], some 27700⟩
    "g.json").1 0 (by decide) rfl

/-- `setattr` on a non-geometry column leaves the geometry column alone. -/
theorem setAttr_geometry (m : CyclingRoute) (k : String) (v : Json) :
    (setAttr m k v).geometry = m.geometry := by
  simp only [setAttr, apply_ite CyclingRoute.geometry, ite_self]

/-- Setting `route_type` stores the value. -/
theorem setAttr_route_type (m : CyclingRoute) (v : Json) :
    (setAttr m "route_type" v).route_type = some v := rfl

/-- `setattr` on any other column leaves `route_type` alone. -/
theorem setAttr_route_type_ne (m : CyclingRoute) (k : String) (v : Json)
    (hk : k ≠ "route_type") :
    (setAttr m k v).route_type = m.route_type := by
  have hne : (k == "route_type") = false := by simp [hk]
  simp only [setAttr, apply_ite CyclingRoute.route_type, hne, Bool.false_eq_true,
    if_false, ite_self]

/-- One attribute-loop iteration leaves the geometry column alone. -/
theorem rowStep_geometry (m : CyclingRoute) (kv : String × Json) :
    (rowStep m kv).geometry = m.geometry := by
  simp only [rowStep, apply_ite CyclingRoute.geometry, setAttr_geometry, ite_self]

/-- The whole attribute loop leaves the geometry column alone. -/
theorem rowFold_geometry (props : List (String × Json)) (m : CyclingRoute) :
    (props.foldl rowStep m).geometry = m.geometry := by
  induction props generalizing m with
  | nil => rfl
  | cons kv rest ih => rw [List.foldl_cons, ih, rowStep_geometry]

/-- An attribute named neither `type` nor `route_type` leaves `route_type`
alone. -/
theorem rowStep_route_type_ne (m : CyclingRoute) (kv : String × Json)
    (h1 : kv.1 ≠ "type") (h2 : kv.1 ≠ "route_type") :
    (rowStep m kv).route_type = m.route_type := by
  have ht : (kv.1 == "type") = false := by simp [h1]
  simp only [rowStep, ht, Bool.false_and, Bool.false_eq_true, if_false,
    apply_ite CyclingRoute.route_type, setAttr_route_type_ne m kv.1 kv.2 h2, ite_self]

/-- The attribute loop over items named neither `type` nor `route_type`
leaves `route_type` alone. -/
theorem rowFold_route_type (props : List (String × Json)) (m : CyclingRoute)
    (h : ∀ kv ∈ props, kv.1 ≠ "type" ∧ kv.1 ≠ "route_type") :
    (props.foldl rowStep m).route_type = m.route_type := by
  induction props generalizing m with
  | nil => rfl
  | cons kv rest ih =>
    have hkv := h kv (List.mem_cons_self kv rest)
    rw [List.foldl_cons, ih _ (fun x hx => h x (List.mem_cons_of_mem _ hx)),
      rowStep_route_type_ne m kv hkv.1 hkv.2]

/-- An attribute with no matching model attribute (and not the renamed
`type`) is a no-op of the attribute loop. -/
theorem rowStep_skip (m : CyclingRoute) (kv : String × Json)
    (h : (kv.1 == "type" || modelHasAttr kv.1) = false) :
    rowStep m kv = m := by
  have h1 : (kv.1 == "type") = false := by
    cases ht : (kv.1 == "type") <;> simp_all
  have h2 : modelHasAttr kv.1 = false := by
    cases ht : modelHasAttr kv.1 <;> simp_all
  have h3 : (kv.1 == "geometry") = false := by
    cases ht : (kv.1 == "geometry") with
    | true =>
      have heq : kv.1 = "geometry" := by simpa using ht
      rw [heq] at h2
      simp [modelHasAttr] at h2
    | false => rfl
  simp [rowStep, h1, h2, h3]

/-- Counterexample to C3 as stated: a loaded row whose geometry is null is
persisted with a null geometry column — the geometry assignment is guarded
by `row.geometry is not None` and is omitted for such a row. -/
theorem spec_C3_counterexample :
    ((gdf_to_sql_model (fun _ => false) ⟨[⟨[], none⟩], some 4326⟩ 64000 ⟨[]⟩).1.committed.map
      (fun m => m.geometry)) = [none] := rfl

/-- C3 (amended): for every row mapped onto the target record during
database loading whose geometry is not null, the geometry is converted to
well-known text and tagged with `SRID=4326` before assignment; a row with a
null geometry leaves the record's geometry column null. -/
theorem spec_C3 (row : Row) :
    (∀ g, row.geom = some g →
      (rowToModel row).geometry = some ("SRID=4326;" ++ wktDumps g)) ∧
    (row.geom = none → (rowToModel row).geometry = none) := by
  constructor
  · intro g hg
    unfold rowToModel
    rw [hg]
  · intro hg
    unfold rowToModel
    rw [hg]
    exact rowFold_geometry row.props {}

/-- Witness for C3 (amended) at a concrete row with a geometry. -/
theorem spec_C3_witness :
    (rowToModel ⟨[("street", Json.str "Main St")],
        some (Geometry.lineString [(0, 0), (1, 1)])⟩).geometry =
      some ("SRID=4326;" ++ wktDumps (Geometry.lineString [(0, 0), (1, 1)])) :=
  (spec_C3 ⟨[("street", Json.str "Main St")],
    some (Geometry.lineString [(0, 0), (1, 1)])⟩).1 _ rfl

/-- C6: for every source row mapped onto the target record during database
loading, the source attribute named `type` is assigned to the target field
`route_type` (when no later attribute writes `route_type` again), and every
source attribute with no corresponding target field is silently ignored —
removing all such attributes does not change the produced record. -/
theorem spec_C6 (row : Row) :
    (∀ p1 p2 v, row.props = p1 ++ ("type", v) :: p2 →
      (∀ kv ∈ p2, kv.1 ≠ "type" ∧ kv.1 ≠ "route_type") →
      (rowToModel row).route_type = some v) ∧
    rowToModel row =
      rowToModel ⟨row.props.filter (fun kv => kv.1 == "type" || modelHasAttr kv.1),
        row.geom⟩ := by
  constructor
  · intro p1 p2 v hprops hp2
    have hfold : (row.props.foldl rowStep {}).route_type = some v := by
      rw [hprops, List.foldl_append, List.foldl_cons]
      rw [rowFold_route_type p2 _ hp2]
      have hstep : rowStep (p1.foldl rowStep {}) ("type", v) =
          setAttr (p1.foldl rowStep {}) "route_type" v := by
        simp [rowStep, modelHasAttr]
      rw [hstep, setAttr_route_type]
    unfold rowToModel
    cases hg : row.geom with
    | none => exact hfold
    | some g => exact hfold
  · have hfold : ∀ (props : List (String × Json)) (m : CyclingRoute),
        props.foldl rowStep m =
          (props.filter (fun kv => kv.1 == "type" || modelHasAttr kv.1)).foldl rowStep m := by
      intro props
      induction props with
      | nil => intro m; rfl
      | cons kv rest ih =>
        intro m
        cases hk : (kv.1 == "type" || modelHasAttr kv.1) with
        | true =>
          simp only [List.foldl_cons, List.filter_cons, hk, if_true]
          exact ih (rowStep m kv)
        | false =>
          simp only [List.foldl_cons, List.filter_cons, hk, Bool.false_eq_true, if_false]
          rw [rowStep_skip m kv hk]
          exact ih m
    unfold rowToModel
    rw [← hfold]

/-- Witness for C6: the scenario record with `type = "Cycle Path"` and no
`route_type` attribute loads with `route_type = "Cycle Path"`. -/
theorem spec_C6_witness :
    (rowToModel ⟨[("type", Json.str "Cycle Path")], none⟩).route_type =
      some (Json.str "Cycle Path") :=
  (spec_C6 ⟨[("type", Json.str "Cycle Path")], none⟩).1 [] [] (Json.str "Cycle Path")
    rfl (by simp)

/-- Every batch slice holds at most `B` records. -/
theorem chunks_length_le (l : List Row) (B : ℕ) :
    ∀ batch ∈ chunks l B, batch.length ≤ B := by
  intro batch hb
  unfold chunks at hb
  rw [List.mem_map] at hb
  obtain ⟨i, _, rfl⟩ := hb
  calc ((l.drop (i * B)).take B).length ≤ B := List.length_take_le _ _

/-- With a positive batch size an empty table yields no batches. -/
theorem chunks_nil (B : ℕ) (hB : 0 < B) : chunks [] B = [] := by
  have h : (B - 1) / B = 0 := Nat.div_eq_of_lt (by omega)
  simp [chunks, h]

/-- Peeling the first batch off a nonempty table. -/
theorem chunks_cons (l : List Row) (B : ℕ) (hB : 0 < B) (hl : l ≠ []) :
    chunks l B = l.take B :: chunks (l.drop B) B := by
  have hlen : 0 < l.length := List.length_pos.mpr hl
  have hcount : (l.length + B - 1) / B = ((l.drop B).length + B - 1) / B + 1 := by
    rw [List.length_drop]
    rcases Nat.lt_or_ge l.length (B + 1) with h | h
    · have h1 : (l.length + B - 1) / B = 1 := by
        apply Nat.div_eq_of_lt_le
        · omega
        · omega
      have h2 : ((l.length - B) + B - 1) / B = 0 := Nat.div_eq_of_lt (by omega)
      omega
    · have heq : l.length + B - 1 = ((l.length - B) + B - 1) + B := by omega
      rw [heq, Nat.add_div_right _ hB]
  unfold chunks
  rw [hcount, List.range_succ_eq_map, List.map_cons, List.map_map]
  congr 1
  · simp
  · apply List.map_congr_left
    intro i _
    simp only [Function.comp_apply]
    rw [List.drop_drop]
    congr 2
    rw [Nat.succ_mul]
    omega

/-- The batch slices cover exactly the table, in order. -/
theorem chunks_flatten (B : ℕ) (hB : 0 < B) : ∀ l : List Row, (chunks l B).flatten = l := by
  have main : ∀ n, ∀ l : List Row, l.length = n → (chunks l B).flatten = l := by
    intro n
    induction n using Nat.strong_induction_on with
    | _ n ih =>
      intro l hl
      cases l with
      | nil => simp [chunks_nil B hB]
      | cons a t =>
        rw [chunks_cons _ B hB (by simp), List.flatten_cons,
          ih ((a :: t).drop B).length (by rw [← hl]; simp [List.length_drop]; omega) _ rfl]
        exact List.take_append_drop B (a :: t)
  intro l
  exact main l.length l rfl

/-- Running the batch loop with no failing commit appends every batch's
models and returns the accumulated count. -/
theorem insertBatches_ok (failOn : ℕ → Bool) (bs : List (List Row)) (k acc : ℕ)
    (db : DbState) (h : ∀ j, j < bs.length → failOn (k + j) = false) :
    insertBatches failOn bs k acc db =
      (⟨db.committed ++ bs.flatten.map rowToModel⟩,
        .ok (acc + (bs.flatten.map rowToModel).length)) := by
  induction bs generalizing k acc db with
  | nil => simp [insertBatches]
  | cons b rest ih =>
    have h0 : failOn k = false := by simpa using h 0 (by simp)
    rw [insertBatches, if_neg (by simp [h0])]
    rw [ih (k + 1) _ _ (fun j hj => by
      have := h (j + 1) (by simpa using hj)
      rwa [show k + (j + 1) = k + 1 + j by omega] at this)]
    simp [List.append_assoc]
    omega

/-- A first failing commit at batch `i` leaves exactly the batches before it
committed and surfaces the exception. -/
theorem insertBatches_err (failOn : ℕ → Bool) (bs : List (List Row)) (k acc : ℕ)
    (db : DbState) (i : ℕ) (hi : i < bs.length) (hf : failOn (k + i) = true)
    (hprev : ∀ j, j < i → failOn (k + j) = false) :
    insertBatches failOn bs k acc db =
      (⟨db.committed ++ ((bs.take i).flatten.map rowToModel)⟩, .error ()) := by
  induction bs generalizing k acc db i with
  | nil => simp at hi
  | cons b rest ih =>
    cases i with
    | zero =>
      have h0 : failOn k = true := by simpa using hf
      simp [insertBatches, h0]
    | succ n =>
      have h0 : failOn k = false := by simpa using hprev 0 (Nat.succ_pos n)
      rw [insertBatches, if_neg (by simp [h0])]
      rw [ih (k + 1) _ _ n (by simpa using hi)
        (by rwa [show k + 1 + n = k + (n + 1) by omega])
        (fun j hj => by
          have := hprev (j + 1) (by omega)
          rwa [show k + (j + 1) = k + 1 + j by omega] at this)]
      simp [List.append_assoc]

/-- C2: for every processed table loaded with positive batch size `B`,
records are inserted in batches of at most `B` covering the whole table in
order, each batch committed independently: with no failing batch every
record is persisted and the inserted count returned; if the commit of some
batch raises, that batch is rolled back, the exception propagates to the
caller, and exactly the batches committed before it remain persisted. -/
theorem spec_C2 (failOn : ℕ → Bool) (gdf : Frame) (B : ℕ) (db : DbState)
    (hB : 0 < B) :
    (∀ batch ∈ chunks gdf.rows B, batch.length ≤ B) ∧
    (chunks gdf.rows B).flatten = gdf.rows ∧
    ((∀ j, j < (chunks gdf.rows B).length → failOn j = false) →
      gdf_to_sql_model failOn gdf B db =
        (⟨db.committed ++ gdf.rows.map rowToModel⟩,
          .ok (gdf.rows.map rowToModel).length)) ∧
    (∀ k, k < (chunks gdf.rows B).length → failOn k = true →
      (∀ j, j < k → failOn j = false) →
      gdf_to_sql_model failOn gdf B db =
        (⟨db.committed ++ ((chunks gdf.rows B).take k).flatten.map rowToModel⟩,
          .error ())) := by
  have hB0 : (B == 0) = false := by simp; omega
  refine ⟨chunks_length_le gdf.rows B, chunks_flatten B hB gdf.rows, ?_, ?_⟩
  · intro h
    rw [gdf_to_sql_model, if_neg (by simp [hB0])]
    rw [insertBatches_ok failOn _ 0 0 db (fun j hj => by simpa using h j hj)]
    rw [chunks_flatten B hB gdf.rows]
    simp
  · intro k hk hf hprev
    rw [gdf_to_sql_model, if_neg (by simp [hB0])]
    rw [insertBatches_err failOn _ 0 0 db k hk (by simpa using hf)
      (fun j hj => by simpa using hprev j hj)]

/-- Witness for C2: exactly `B + 1 = 3` records with `B = 2` and a failure
on the second batch leave the first batch's `B` records persisted and the
exception surfaced. -/
theorem spec_C2_witness :
    gdf_to_sql_model (fun j => j == 1)
      ⟨[⟨[], none⟩, ⟨[], none⟩, ⟨[], none⟩], some 4326⟩ 2 ⟨[]⟩ =
      (⟨[rowToModel ⟨[], none⟩, rowToModel ⟨[], none⟩]⟩, .error ()) := by
  have h := (spec_C2 (fun j => j == 1)
    ⟨[⟨[], none⟩, ⟨[], none⟩, ⟨[], none⟩], some 4326⟩ 2 ⟨[]⟩ (by omega)).2.2.2
    1 (by decide) rfl (by decide)
  simpa using h

/-- C10: the per-file load operation never propagates an exception and
always returns a count: a read failure, an empty table, a failed CRS
conversion (no declared CRS), and a batch-insert exception after rollback
are each converted to the return value 0 — in the last case even though the
batches committed before the failure remain persisted. -/
theorem spec_C10 (reproj : Point → Point) (readRes : ReadResult) (failOn : ℕ → Bool)
    (B : ℕ) (drop_existing : Bool) (db : DbState) :
    (∃ n, (load_processed_geojson_to_db reproj readRes failOn B drop_existing db).2 =
      Except.ok n) ∧
    (readRes = ReadResult.failure →
      load_processed_geojson_to_db reproj readRes failOn B drop_existing db =
        (db, .ok 0)) ∧
    (∀ gdf, readRes = ReadResult.ok gdf → gdf.rows = [] →
      load_processed_geojson_to_db reproj readRes failOn B drop_existing db =
        (db, .ok 0)) ∧
    (∀ gdf, readRes = ReadResult.ok gdf → gdf.rows ≠ [] → gdf.crs = none →
      load_processed_geojson_to_db reproj readRes failOn B drop_existing db =
        (db, .ok 0)) ∧
    (∀ gdf k, readRes = ReadResult.ok gdf → gdf.crs = some 4326 → 0 < B →
      k < (chunks gdf.rows B).length → failOn k = true →
      (∀ j, j < k → failOn j = false) →
      load_processed_geojson_to_db reproj readRes failOn B drop_existing db =
        (⟨(create_tables db drop_existing).committed ++
          ((chunks gdf.rows B).take k).flatten.map rowToModel⟩, .ok 0)) := by
  refine ⟨?_, ?_, ?_, ?_, ?_⟩
  · cases readRes with
    | failure => exact ⟨0, rfl⟩
    | ok gdf =>
      simp only [load_processed_geojson_to_db]
      by_cases hemp : gdf.rows.isEmpty = true
      · rw [if_pos hemp]
        exact ⟨0, rfl⟩
      · rw [if_neg hemp]
        cases hcrs : gdf.crs with
        | none =>
          simp only [hcrs]
          exact ⟨0, rfl⟩
        | some c =>
          by_cases hc : c = 4326
          · subst hc
            simp only [hcrs, beq_self_eq_true, if_true]
            rcases hres : gdf_to_sql_model failOn gdf B (create_tables db drop_existing)
              with ⟨db2, r⟩
            cases r with
            | ok n => exact ⟨n, by simp [hres]⟩
            | error e => exact ⟨0, by simp [hres]⟩
          · rcases hres : gdf_to_sql_model failOn (to_crs_4326 reproj gdf) B
              (create_tables db drop_existing) with ⟨db2, r⟩
            cases r with
            | ok n => exact ⟨n, by simp [hcrs, hc, hres]⟩
            | error e => exact ⟨0, by simp [hcrs, hc, hres]⟩
  · intro h
    subst h
    rfl
  · intro gdf h hrows
    subst h
    simp [load_processed_geojson_to_db, hrows]
  · intro gdf h hrows hcrs
    subst h
    simp [load_processed_geojson_to_db, List.isEmpty_iff, hrows, hcrs]
  · intro gdf k h hcrs hB hk hf hprev
    subst h
    have hrows : gdf.rows ≠ [] := by
      intro hnil
      rw [hnil, chunks_nil B hB] at hk
      simp at hk
    simp only [load_processed_geojson_to_db]
    rw [if_neg (by simp [List.isEmpty_iff, hrows])]
    rw [hcrs]
    simp only [beq_self_eq_true, if_true]
    rw [gdf_to_sql_model, if_neg (by simp; omega)]
    rw [insertBatches_err failOn _ 0 0 (create_tables db drop_existing) k hk
      (by simpa using hf) (fun j hj => by simpa using hprev j hj)]

/-- Witness for C10: a batch failure on the second batch returns 0 while the
first batch's records stay persisted. -/
theorem spec_C10_witness :
    load_processed_geojson_to_db (fun p => p)
      (ReadResult.ok ⟨[⟨[], none⟩, ⟨[], none⟩, ⟨[], none⟩], some 4326⟩)
      (fun j => j == 1) 2 false ⟨[]⟩ =
      (⟨[rowToModel ⟨[], none⟩, rowToModel ⟨[], none⟩]⟩, .ok 0) := by
  have h := (spec_C10 (fun p => p)
    (ReadResult.ok ⟨[⟨[], none⟩, ⟨[], none⟩, ⟨[], none⟩], some 4326⟩)
    (fun j => j == 1) 2 false ⟨[]⟩).2.2.2.2
    ⟨[⟨[], none⟩, ⟨[], none⟩, ⟨[], none⟩], some 4326⟩ 1 rfl rfl (by omega)
    (by decide) rfl (by decide)
  simpa using h

/-- C7: in directory-mode loading, even when the caller requests dropping
existing tables, only the first file's load call may carry the drop flag:
every later file is loaded with the drop flag false. -/
theorem spec_C7 (drop_existing : Bool) (files : List String) (i : ℕ)
    (hi : i < (dirLoadCalls drop_existing files).length) (hpos : 0 < i) :
    ((dirLoadCalls drop_existing files).get ⟨i, hi⟩).2 = false := by
  have hne : (i == 0) = false := by simp; omega
  simp [dirLoadCalls, List.get_eq_getElem, hne]

/-- Witness for C7: the second file of a two-file run is loaded with the
drop flag false although dropping was requested. -/
theorem spec_C7_witness :
    ((dirLoadCalls true ["a.geojson", "b.geojson"]).get ⟨1, by decide⟩).2 = false :=
  spec_C7 true ["a.geojson", "b.geojson"] 1 (by decide) (by decide)

/-- Counterexample to C4 as stated: malformed JSON is reported through the
parse-error signal, which is distinct from the "no data" signal the claim
asserts for it. -/
theorem spec_C4_counterexample :
    import_json_data JsonDoc.malformed = ImportResult.parseError ∧
    ImportResult.parseError ≠ ImportResult.noData :=
  ⟨rfl, fun h => ImportResult.noConfusion h⟩

/-- C4 (amended): malformed JSON produces the parse-error outcome; an empty
feature list and an unexpected top-level shape that yields no features (an
object that is not a feature collection or feature) produce the "no data"
outcome; the two outcomes are distinct; and every failure mode is non-fatal:
the importer returns None to its caller exactly on the two failure outcomes
instead of raising. -/
theorem spec_C4 :
    import_json_data JsonDoc.malformed = ImportResult.parseError ∧
    import_json_data (JsonDoc.value (Json.arr [])) = ImportResult.noData ∧
    (∀ fields, fields.any (fun kv => kv.1 == "type") = false →
      import_json_data (JsonDoc.value (Json.obj fields)) = ImportResult.noData) ∧
    ImportResult.noData ≠ ImportResult.parseError ∧
    (∀ doc, importReturn (import_json_data doc) = none ↔
      import_json_data doc = ImportResult.noData ∨
      import_json_data doc = ImportResult.parseError) := by
  refine ⟨rfl, rfl, ?_, fun h => ImportResult.noConfusion h, ?_⟩
  · intro fields hf
    have hbody : importBody (Json.obj fields) = some ImportResult.noData := by
      simp [importBody, pyIn, hf, fallbackFeatures, jsonTruthy]
    simp [import_json_data, hbody]
  · intro doc
    cases h : import_json_data doc with
    | ok f => simp [importReturn]
    | noData => simp [importReturn]
    | parseError => simp [importReturn]

/-- Witness for C4 (amended): an object with no `type` member imports as
"no data". -/
theorem spec_C4_witness :
    import_json_data (JsonDoc.value (Json.obj [("a", Json.num 1)])) =
      ImportResult.noData :=
  spec_C4.2.2.1 [("a", Json.num 1)] rfl

/-- C9: for every invocation of the end-to-end processing operation with
output format geojson or csv: the output directory is created; if either the
importing or the processing step fails, the operation returns the failure
value and writes no output file; otherwise it writes exactly one output file and
returns that file's path. -/
theorem spec_C9 (reproj : Point → Point) (doc : JsonDoc)
    (filePath outputDir timestamp : String) (fmt : OutputFormat)
    (hfmt : fmt = OutputFormat.geojson ∨ fmt = OutputFormat.csv) :
    FsEvent.mkdirP outputDir ∈ (mainRun reproj doc filePath outputDir timestamp fmt).2 ∧
    (importReturn (import_json_data doc) = none →
      (mainRun reproj doc filePath outputDir timestamp fmt).1 = ProcOutcome.failed ∧
      writesOf (mainRun reproj doc filePath outputDir timestamp fmt).2 = []) ∧
    (∀ gdf, importReturn (import_json_data doc) = some gdf →
      (process_route_features reproj gdf filePath).1 = none →
      (mainRun reproj doc filePath outputDir timestamp fmt).1 = ProcOutcome.failed ∧
      writesOf (mainRun reproj doc filePath outputDir timestamp fmt).2 = []) ∧
    (∀ gdf, importReturn (import_json_data doc) = some gdf →
      ∀ out, (process_route_features reproj gdf filePath).1 = some out →
      ∃ p, (mainRun reproj doc filePath outputDir timestamp fmt).1 = ProcOutcome.path p ∧
        writesOf (mainRun reproj doc filePath outputDir timestamp fmt).2 = [p]) := by
  refine ⟨List.mem_cons_self _ _, ?_, ?_, ?_⟩
  · intro himp
    simp [mainRun, process_route_json_file, himp, writesOf]
  · intro gdf himp hproc
    simp [mainRun, process_route_json_file, himp, hproc, writesOf]
  · intro gdf himp out hproc
    rcases hfmt with rfl | rfl
    · refine ⟨outputPath outputDir filePath timestamp ".geojson", ?_, ?_⟩
      · simp [mainRun, process_route_json_file, himp, hproc]
      · simp [mainRun, process_route_json_file, himp, hproc, writesOf]
    · refine ⟨outputPath outputDir filePath timestamp ".csv", ?_, ?_⟩
      · simp [mainRun, process_route_json_file, himp, hproc]
      · simp [mainRun, process_route_json_file, himp, hproc, writesOf]

/-- Witness for C9: a malformed document under the geojson format fails and
writes nothing. -/
theorem spec_C9_witness :
    (mainRun (fun p => p) JsonDoc.malformed "r.json" "outdir" "ts"
      OutputFormat.geojson).1 = ProcOutcome.failed ∧
    writesOf (mainRun (fun p => p) JsonDoc.malformed "r.json" "outdir" "ts"
      OutputFormat.geojson).2 = [] :=
  (spec_C9 (fun p => p) JsonDoc.malformed "r.json" "outdir" "ts"
    OutputFormat.geojson (Or.inl rfl)).2.1 rfl

/-- C8: the specification's scenario FeatureCollection — one feature with
street/type properties and the LineString from (300000, 700000) to
(300100, 700100) — imports as one record and processes to exactly one
record whose `route_length_m` is the Euclidean length of the segment,
within 0.01 of 141.42, with the geometry reprojected by the coordinate
transformation and the output tagged EPSG:4326. -/
theorem spec_C8 (reproj : Point → Point) :
    import_json_data (JsonDoc.value exampleDoc) =
      ImportResult.ok ⟨[⟨exampleProps, some exampleLine⟩], some 27700⟩ ∧
    process_route_features reproj ⟨[⟨exampleProps, some exampleLine⟩], some 27700⟩
        "networks.json" =
      (some ⟨[⟨exampleProps, geomLength exampleLine, basename "networks.json",
        mapGeom reproj exampleLine⟩], some 4326⟩, []) ∧
    |geomLength exampleLine - 141.42| < 1 / 100 := by
  refine ⟨rfl, rfl, ?_⟩
  have hlen : geomLength exampleLine = Real.sqrt 20000 := by
    simp only [exampleLine, geomLength, chainLen, segLen]
    norm_num
  rw [hlen, abs_sub_lt_iff]
  have hlt : Real.sqrt 20000 < 141.43 := by
    have h2 : (20000 : ℝ) < 141.43 ^ 2 := by norm_num
    have h3 := Real.sqrt_lt_sqrt (by norm_num : (0 : ℝ) ≤ 20000) h2
    rwa [Real.sqrt_sq (by norm_num : (0 : ℝ) ≤ 141.43)] at h3
  have hgt : (141.42 : ℝ) < Real.sqrt 20000 := by
    have h2 : (141.42 : ℝ) ^ 2 < 20000 := by norm_num
    have h3 := Real.sqrt_lt_sqrt (by norm_num : (0 : ℝ) ≤ 141.42 ^ 2) h2
    rwa [Real.sqrt_sq (by norm_num : (0 : ℝ) ≤ 141.42)] at h3
  constructor <;> linarith

end TransitScrape
